import Mathlib

/-!
Shallow embedding of `src/transport.py` (Insta360 camera transport layer):
a WiFi/TCP socket transport and a BLE transport behind one interface.
External effects (socket syscalls, the bleak BLE stack, thread scheduling,
future completion times) are modelled as explicit environment parameters;
machine time is modelled with rationals.
-/

namespace Insta360

/-- Python string truthiness for an optional string field (`if self.host:`). -/
def pyTruthyStr : Option String → Bool
  | none => false
  | some s => decide (s ≠ "")

/-- Python integer truthiness for an optional numeric field (`if self.port:`). -/
def pyTruthyNat : Option Nat → Bool
  | none => false
  | some n => decide (n ≠ 0)

/-- Python `str.lower()`: lowercase every character. -/
def lowerStr (s : String) : String := ⟨s.data.map Char.toLower⟩

/-- Python `x or y` on an optional string (falsy `None`/`""` falls through). -/
def pyStrOr (x : Option String) (y : String) : String :=
  match x with
  | some s => if s = "" then y else s
  | none => y

/-- State of a `WiFiTransport` instance (fields of the Python object).
`socket`/`rcv_thread` model handle presence; `rcv_thread = some b` means a
thread object is stored and `b` is its `is_alive()` answer. -/
structure WiFiTransport where
  host : Option String
  port : Option Nat
  socket : Option Nat
  is_connected : Bool
  rcv_thread : Option Bool
  rcv_buffer : List Nat
  stop_receiving_flag : Bool
  receive_callback : Option Nat
  deriving Repr, DecidableEq

/-- A freshly constructed `WiFiTransport` (its `__init__`). -/
def mkWiFi : WiFiTransport :=
  { host := none, port := none, socket := none, is_connected := false,
    rcv_thread := none, rcv_buffer := [], stop_receiving_flag := false,
    receive_callback := none }

/-- Outcome of the socket open/settimeout/connect sequence: a usable handle,
or some exception raised along the way. -/
inductive SockEnv where
  | ok (handle : Nat)
  | raises (msg : String)
  deriving Repr, DecidableEq

/-- `WiFiTransport.connect`: records host/port, then either stores the
connected socket and sets `is_connected`, or (on any exception) logs,
clears the socket handle, clears `is_connected` and returns `false`.
Never raises: the whole body is inside `try/except`. -/
def wifiConnect (t : WiFiTransport) (host : String) (port : Nat) (env : SockEnv) :
    WiFiTransport × Bool :=
  let t1 := { t with host := some host, port := some port }
  match env with
  | .ok h => ({ t1 with socket := some h, is_connected := true }, true)
  | .raises _ => ({ t1 with socket := none, is_connected := false }, false)

/-- Join bound (seconds) used by `WiFiTransport.stop_receiving`
(`self.rcv_thread.join(timeout=2.0)`). -/
def WIFI_STOP_JOIN_TIMEOUT : ℚ := 2

/-- `WiFiTransport.stop_receiving`: sets the stop flag, then, if a thread
object is stored, joins it with the 2-second bound and drops the reference. -/
def wifiStopReceiving (t : WiFiTransport) : WiFiTransport :=
  let t1 := { t with stop_receiving_flag := true }
  match t1.rcv_thread with
  | some _ => { t1 with rcv_thread := none }
  | none => t1

/-- `WiFiTransport.disconnect`: stop receiving, shut down and close the
socket ignoring errors, clear the handle, clear `is_connected`, clear the
receive buffer. -/
def wifiDisconnect (t : WiFiTransport) : WiFiTransport :=
  let t1 := wifiStopReceiving t
  { t1 with socket := none, is_connected := false, rcv_buffer := [] }

/-- `WiFiTransport.send`: returns `false` at once when no socket handle is
stored or `is_connected` is false; otherwise writes under the lock
(`sendall`), returning `true` on success and `false` on any exception.
Result is `(state, returned value, write attempted on the medium)`. -/
def wifiSend (t : WiFiTransport) (_data : List Nat) (sendOk : Bool) :
    WiFiTransport × Bool × Bool :=
  if t.socket = none ∨ t.is_connected = false then (t, false, false)
  else if sendOk then (t, true, true)
  else (t, false, true)

/-- `WiFiTransport.start_receiving`: no-op when a stored thread is alive;
otherwise registers the callback, clears the stop flag and starts one
receive thread. Result is `(state, a new thread was spawned)`. -/
def wifiStartReceiving (t : WiFiTransport) (cb : Nat) : WiFiTransport × Bool :=
  match t.rcv_thread with
  | some true => (t, false)
  | _ =>
    ({ t with receive_callback := some cb, stop_receiving_flag := false,
              rcv_thread := some true }, true)

/-- One poll cycle's outcome on the socket, as seen by `_poll_and_receive`:
readable with a chunk of bytes, a 100 ms poll timeout, or an exception. -/
inductive PollEvent where
  | chunk (data : List Nat)
  | timeout
  | raisesErr
  deriving Repr, DecidableEq

/-- `WiFiTransport._poll_and_receive` restricted to its callback effect:
the invocations `(callback, bytes)` it performs for one poll event.
A callback fires only for a non-empty chunk with a callback registered. -/
def pollAndReceive (sock : Bool) (cb : Option Nat) (ev : PollEvent) :
    List (Nat × List Nat) :=
  if sock = false then []
  else
    match ev, cb with
    | .chunk d, some c => if d = [] then [] else [(c, d)]
    | _, _ => []

/-- `WiFiTransport._receive_loop`: before each iteration the loop re-reads
`stop_receiving_flag` (value `flags i` at iteration `i`) and the socket
presence, exiting when the flag is set or the socket is gone; otherwise it
runs one poll cycle. Result is the list of callback invocations performed. -/
def receiveLoopRun (flags : Nat → Bool) (sock : Bool) (cb : Option Nat) :
    List PollEvent → Nat → List (Nat × List Nat)
  | [], _ => []
  | ev :: rest, i =>
    if flags i = true ∨ sock = false then []
    else pollAndReceive sock cb ev ++ receiveLoopRun flags sock cb rest (i + 1)

/-- `WiFiTransport.connection_info`: endpoint string when connected with a
truthy host and port, else the disconnected marker. A pure attribute read:
it never blocks and never fails. -/
def wifiConnectionInfo (t : WiFiTransport) : String :=
  if t.is_connected && pyTruthyStr t.host && pyTruthyNat t.port then
    "WiFi " ++ t.host.getD "" ++ ":" ++ toString (t.port.getD 0)
  else "WiFi (disconnected)"

/-- The fixed BLE service identifier (`BLETransport.SERVICE_UUID`). -/
def SERVICE_UUID : String := "0000be80-0000-1000-8000-00805f9b34fb"

/-- The fixed write/read characteristic (`BLETransport.WRITE_CHAR_UUID`). -/
def WRITE_CHAR_UUID : String := "0000be81-0000-1000-8000-00805f9b34fb"

/-- The fixed notify characteristic (`BLETransport.READ_CHAR_UUID`). -/
def READ_CHAR_UUID : String := "0000be82-0000-1000-8000-00805f9b34fb"

/-- The relevant observable state of a `BleakClient` handle: the address and
timeout it was constructed with, and its `is_connected` answer. -/
structure BleakClientM where
  address : String
  timeout : ℚ
  is_connected : Bool
  deriving Repr, DecidableEq

/-- State of a `BLETransport` instance (fields of the Python object).
`event_loop`/`ble_thread` model presence of the loop object and thread. -/
structure BLETransport where
  is_connected : Bool
  receive_callback : Option Nat
  device_address : Option String
  device_name : Option String
  client : Option BleakClientM
  event_loop : Bool
  ble_thread : Bool
  pending_tasks : Nat
  _disconnecting : Bool
  deriving Repr, DecidableEq

/-- A freshly constructed `BLETransport` (its `__init__`). -/
def mkBLE : BLETransport :=
  { is_connected := false, receive_callback := none, device_address := none,
    device_name := none, client := none, event_loop := false,
    ble_thread := false, pending_tasks := 0, _disconnecting := false }

/-- A device handed back by `_find_camera` (bleak `BLEDevice`). -/
structure FoundDevice where
  name : Option String
  address : String
  deriving Repr, DecidableEq

/-- Environment of one `_async_connect` run: the scan result (when scanning
is needed), whether `client.connect()` raises, its returned value, the
client's `is_connected` answer, and whether `start_notify` raises. -/
structure AsyncConnectEnv where
  scan : Option FoundDevice
  clientConnectRaises : Bool
  clientConnectResult : Bool
  clientIsConnected : Bool
  startNotifyRaises : Bool
  deriving Repr, DecidableEq

/-- `BLETransport._async_connect`: scans when no truthy address was given
(recording the found device's name), stores the resolved address, builds a
`BleakClient` with timeout 3600 s (indefinite mode) or 20 s (timed mode),
connects and arms notifications. Returns `true` and sets `is_connected`
only when connect and `start_notify` both succeed; every failure path
(including exceptions, which the body catches) returns `false`. -/
def asyncConnect (t : BLETransport) (deviceAddr : Option String)
    (scanTimeout : Option ℚ) (env : AsyncConnectEnv) : BLETransport × Bool :=
  let resolved : Option (BLETransport × String) :=
    if pyTruthyStr deviceAddr then some (t, deviceAddr.getD "")
    else
      match env.scan with
      | none => none
      | some d => some ({ t with device_name := d.name }, d.address)
  match resolved with
  | none => (t, false)
  | some (t1, a) =>
    let cto : ℚ := match scanTimeout with | none => 3600 | some _ => 20
    let t2 := { t1 with device_address := some a,
                        client := some { address := a, timeout := cto,
                                         is_connected := env.clientIsConnected } }
    if env.clientConnectRaises then (t2, false)
    else if env.clientConnectResult || env.clientIsConnected then
      if env.startNotifyRaises then (t2, false)
      else ({ t2 with is_connected := true }, true)
    else (t2, false)

/-- What the caller of `BLETransport.connect` observes: either the call
returns a boolean after waiting `wait` seconds (with `taskAbandoned` true
when the caller-side bound expired while the background task kept running,
uncancelled), or it blocks forever (indefinite mode, task never done). -/
inductive ConnectOutcome where
  | returns (result : Bool) (wait : ℚ) (taskAbandoned : Bool)
  | blocksForever
  deriving Repr, DecidableEq

/-- `BLETransport.connect`: imports bleak (`importOk` false models
`ImportError` → log and return `false`), starts the event-loop thread,
schedules `_async_connect` and blocks on the future: with
`scan_timeout = None` it waits with no bound (`future.result()`), else with
bound `scan_timeout + 20`; a wait-bound expiry raises `TimeoutError`,
caught by the `except` → `false`, the task left running. `taskTime` is the
background task's completion time (`none` = it never completes). The fixed
0.1 s loop-startup sleep is not counted in `wait`. Never raises. -/
def bleConnect (t : BLETransport) (deviceAddr : Option String)
    (scanTimeout : Option ℚ) (importOk : Bool) (taskTime : Option ℚ)
    (env : AsyncConnectEnv) : BLETransport × ConnectOutcome :=
  if importOk = false then (t, .returns false 0 false)
  else
    let t0 := { t with ble_thread := true, event_loop := true }
    match scanTimeout with
    | none =>
      match taskTime with
      | none => (t0, .blocksForever)
      | some tt =>
        let r := asyncConnect t0 deviceAddr none env
        (r.1, .returns r.2 tt false)
    | some st =>
      match taskTime with
      | none => (t0, .returns false (st + 20) true)
      | some tt =>
        if tt ≤ st + 20 then
          let r := asyncConnect t0 deviceAddr (some st) env
          (r.1, .returns r.2 tt false)
        else (t0, .returns false (st + 20) true)

/-- Behaviour of the GATT write inside `_async_send`: it succeeds, raises,
or the task is cancelled before reaching the write. -/
inductive WriteEnv where
  | ok
  | raisesErr
  | cancelled
  deriving Repr, DecidableEq

/-- `BLETransport._async_send`: returns `false` without writing when the
disconnecting guard is set, the client is absent or reports disconnected;
otherwise performs the GATT write, returning `true` on success and `false`
on exception or cancellation. Result is `(returned value, GATT write
attempted)`. -/
def asyncSend (t : BLETransport) (w : WriteEnv) : Bool × Bool :=
  match t.client with
  | none => (false, false)
  | some c =>
    if t._disconnecting || !c.is_connected then (false, false)
    else
      match w with
      | .ok => (true, true)
      | .raisesErr => (false, true)
      | .cancelled => (false, false)

/-- Caller-side bound (seconds) on `BLETransport.send`
(`future.result(timeout=2.0)`). -/
def BLE_SEND_TIMEOUT : ℚ := 2

/-- What one `BLETransport.send` call did. -/
structure SendOutcome where
  state : BLETransport
  result : Bool
  taskScheduled : Bool
  writeAttempted : Bool
  deriving Repr, DecidableEq

/-- `BLETransport.send`: returns `false` immediately — scheduling nothing —
when the client is absent, `is_connected` is false, no event loop exists,
or the disconnecting guard is set; otherwise schedules `_async_send` on the
loop and waits up to 2 s (`withinBound` false models the future not
completing in time → exception caught → `false`). Never raises. -/
def bleSend (t : BLETransport) (_data : List Nat) (w : WriteEnv)
    (withinBound : Bool) : SendOutcome :=
  if t.client = none ∨ t.is_connected = false ∨ t.event_loop = false ∨
      t._disconnecting = true then
    ⟨t, false, false, false⟩
  else
    let r := asyncSend t w
    if withinBound then ⟨t, r.1, true, r.2⟩
    else ⟨t, false, true, r.2⟩

/-- `BLETransport.start_receiving`: registers the callback; notifications
themselves were armed at connect time. -/
def bleStartReceiving (t : BLETransport) (cb : Nat) : BLETransport :=
  { t with receive_callback := some cb }

/-- `BLETransport.stop_receiving`: clears the registered callback; a plain
field assignment touching nothing else. -/
def bleStopReceiving (t : BLETransport) : BLETransport :=
  { t with receive_callback := none }

/-- `BLETransport._notification_handler`: forwards the notification bytes
to the registered callback when one is present, else drops them. Result is
the list of callback invocations performed. -/
def notificationHandler (t : BLETransport) (data : List Nat) :
    List (Nat × List Nat) :=
  match t.receive_callback with
  | some cb => [(cb, data)]
  | none => []

/-- `BLETransport.disconnect`: sets the disconnecting guard, clears
`is_connected`, runs the best-effort async teardown (failures ignored),
cancels and clears the pending task set when a loop exists, stops the loop,
joins the thread with a 2 s bound and drops it, and finally clears the
guard. The loop object reference and the client handle are not cleared. -/
def bleDisconnect (t : BLETransport) : BLETransport :=
  { t with is_connected := false,
           pending_tasks := if t.event_loop then 0 else t.pending_tasks,
           ble_thread := false,
           _disconnecting := false }

/-- `BLETransport.connection_info`: `"BLE "` plus
`device_name or device_address or "Unknown"` when connected, else the
disconnected marker. A pure attribute read: it never blocks and never
fails. -/
def bleConnectionInfo (t : BLETransport) : String :=
  if t.is_connected then
    "BLE " ++ pyStrOr t.device_name (pyStrOr t.device_address "Unknown")
  else "BLE (disconnected)"

/-- An advertisement seen by the scanner: the advertising device and its
advertised service UUID list. -/
structure AdvDevice where
  name : Option String
  address : String
  service_uuids : List String
  deriving Repr, DecidableEq

/-- The filter in `_find_camera`: the fixed service UUID, lowercased, is a
member of the advertisement's lowercased service UUID list. -/
def advMatches (d : AdvDevice) : Bool :=
  (d.service_uuids.map (fun u => lowerStr u)).contains (lowerStr SERVICE_UUID)

/-- `_find_camera` with a finite timeout: one discovery pass, returning the
first discovered device advertising the service UUID, else `none`
("not found"). -/
def findCameraTimed (devices : List AdvDevice) : Option AdvDevice :=
  devices.find? advMatches

/-- One advertisement event inside a 5-second scan window, with its arrival
time (seconds from window start, `0 ≤ time < 5`). -/
structure WindowAdv where
  dev : AdvDevice
  time : ℚ
  deriving Repr, DecidableEq

/-- The first matching advertisement delivered to the detection callback in
one window (`found_device` is captured once and scanning then stops). -/
def windowFirstMatch (w : List WindowAdv) : Option WindowAdv :=
  w.find? (fun a => advMatches a.dev)

/-- Per-window scan duration (seconds) of the indefinite scan
(`scan_duration = 5.0`). -/
def SCAN_WINDOW_SEC : ℚ := 5

/-- `_find_camera` with `timeout = None`: repeat 5-second scan windows,
returning as soon as a window's detection callback captures a matching
device. `windows k` is the advertisement stream of window `k` (0-based);
`fuel` bounds how many windows we unroll (the Python loop is unbounded, so
exhausted fuel means "still scanning", not a returned result); `count` is
the Python `scan_count` entering the window. Result:
`(found device if returned, elapsed seconds, scan_count values at which a
"still scanning" notice was logged)` — the notice fires when
`scan_count > 1`. A full window costs 5 s; the match window costs only the
match's arrival time, scanning stopping immediately on the match. -/
def findCameraIndef (windows : Nat → List WindowAdv) :
    Nat → Nat → Option AdvDevice × ℚ × List Nat
  | 0, _ => (none, 0, [])
  | fuel + 1, count =>
    let c := count + 1
    let logsHere : List Nat := if c > 1 then [c] else []
    match windowFirstMatch (windows (c - 1)) with
    | some a => (some a.dev, a.time, logsHere)
    | none =>
      let r := findCameraIndef windows fuel c
      (r.1, SCAN_WINDOW_SEC + r.2.1, logsHere ++ r.2.2)

/-! ### Helper lemmas -/

/-- A device captured by a window's detection callback advertises the
service UUID. -/
theorem windowFirstMatch_matches {w : List WindowAdv} {a : WindowAdv}
    (h : windowFirstMatch w = some a) : advMatches a.dev = true := by
  unfold windowFirstMatch at h
  exact List.find?_some (p := fun x : WindowAdv => advMatches x.dev) h

/-- A concrete connected socket-transport state, as left by a successful
`connect` to the default endpoint. -/
def wifiConnectedEx : WiFiTransport :=
  { host := some "192.168.42.1", port := some 6666, socket := some 7,
    is_connected := true, rcv_thread := none, rcv_buffer := [],
    stop_receiving_flag := false, receive_callback := none }

/-- Every failing run of `_async_connect` leaves `is_connected` as it
found it: only the full success path sets it. -/
theorem asyncConnect_fail_keeps_disconnected (t : BLETransport)
    (a : Option String) (st : Option ℚ) (env : AsyncConnectEnv)
    (h : (asyncConnect t a st env).2 = false) :
    (asyncConnect t a st env).1.is_connected = t.is_connected := by
  obtain ⟨sc, ccr, ccres, cic, snr⟩ := env
  rcases sc with _ | d <;> cases hp : pyTruthyStr a <;>
    cases ccr <;> cases ccres <;> cases cic <;> cases snr <;>
    simp_all [asyncConnect]

/-- A state with `is_connected` false reports the WiFi disconnected
marker. -/
theorem wifiConnectionInfo_disconnected {t : WiFiTransport}
    (h : t.is_connected = false) :
    wifiConnectionInfo t = "WiFi (disconnected)" := by
  simp [wifiConnectionInfo, h]

/-- `WiFiTransport.disconnect` always clears the connected flag. -/
theorem wifiDisconnect_is_connected (t : WiFiTransport) :
    (wifiDisconnect t).is_connected = false := by
  unfold wifiDisconnect wifiStopReceiving
  rcases t.rcv_thread with _ | b <;> rfl

/-! ### Claims -/

/-- C2: for every transport instance with `is_connected` false or the
underlying handle (socket / BLE client) absent, `send` returns `false` for
every byte buffer, leaves the state unchanged, and attempts no write on
the medium (for BLE, not even a task is scheduled onto the loop). -/
theorem send_when_disconnected_returns_false :
    (∀ (t : WiFiTransport) (data : List Nat) (sendOk : Bool),
       t.is_connected = false ∨ t.socket = none →
       wifiSend t data sendOk = (t, false, false)) ∧
    (∀ (t : BLETransport) (data : List Nat) (w : WriteEnv) (wb : Bool),
       t.is_connected = false ∨ t.client = none →
       bleSend t data w wb = ⟨t, false, false, false⟩) := by
  constructor
  · intro t data sendOk h
    rcases h with h | h <;> simp [wifiSend, h]
  · intro t data w wb h
    rcases h with h | h <;> simp [bleSend, h]

/-- C2 witness: concrete disconnected instances. -/
theorem send_when_disconnected_returns_false_witness :
    wifiSend mkWiFi [1, 2] true = (mkWiFi, false, false) ∧
    bleSend mkBLE [1, 2] .ok true = ⟨mkBLE, false, false, false⟩ :=
  ⟨send_when_disconnected_returns_false.1 mkWiFi [1, 2] true (Or.inl rfl),
   send_when_disconnected_returns_false.2 mkBLE [1, 2] .ok true (Or.inl rfl)⟩

/-- C3: once the BLE disconnecting guard `_disconnecting` is set, every
`send` returns `false` without scheduling a task onto the event loop and
without attempting the underlying GATT write, whatever the write
environment and wait outcome would have been. -/
theorem ble_send_rejected_after_disconnect_begins :
    ∀ (t : BLETransport) (data : List Nat) (w : WriteEnv) (wb : Bool),
      t._disconnecting = true →
      bleSend t data w wb = ⟨t, false, false, false⟩ := by
  intro t data w wb h
  simp [bleSend, h]

/-- C3 witness: a live, connected BLE instance whose guard is set. -/
theorem ble_send_rejected_after_disconnect_begins_witness :
    bleSend { mkBLE with _disconnecting := true, is_connected := true,
                         event_loop := true, ble_thread := true,
                         client := some ⟨"DC:54:75:E9:01:23", 20, true⟩ }
        [3, 4] .ok true =
      ⟨{ mkBLE with _disconnecting := true, is_connected := true,
                    event_loop := true, ble_thread := true,
                    client := some ⟨"DC:54:75:E9:01:23", 20, true⟩ },
       false, false, false⟩ :=
  ble_send_rejected_after_disconnect_begins _ [3, 4] .ok true rfl

/-- C7: `WiFiTransport.stop_receiving` sets the stop flag and drops the
thread reference after a join bounded by 2 seconds (never an unbounded
block); and once the stop flag is set (and not cleared again), the receive
loop performs no callback invocation at all, whatever data the peer still
sends (`events` may hold arbitrary further chunks). -/
theorem wifi_stop_receiving_halts_delivery :
    (∀ t : WiFiTransport,
       (wifiStopReceiving t).stop_receiving_flag = true ∧
       (wifiStopReceiving t).rcv_thread = none) ∧
    WIFI_STOP_JOIN_TIMEOUT = 2 ∧
    (∀ (sock : Bool) (cb : Option Nat) (events : List PollEvent) (i : Nat),
       receiveLoopRun (fun _ => true) sock cb events i = []) := by
  refine ⟨fun t => ?_, rfl, fun sock cb events i => ?_⟩
  · unfold wifiStopReceiving
    rcases t.rcv_thread with _ | b <;> simp
  · cases events <;> simp [receiveLoopRun]

/-- C10: BLE `stop_receiving` is exactly the field update clearing the
registered callback (touching neither the client link, the event loop,
the thread, nor the connection flags); the notification handler forwards
bytes only when a callback is registered; hence after `stop_receiving`
every incoming notification is dropped. -/
theorem ble_stop_receiving_drops_notifications :
    (∀ t : BLETransport,
       bleStopReceiving t = { t with receive_callback := none }) ∧
    (∀ (t : BLETransport) (data : List Nat) (cb : Nat),
       t.receive_callback = some cb →
       notificationHandler t data = [(cb, data)]) ∧
    (∀ (t : BLETransport) (data : List Nat),
       t.receive_callback = none → notificationHandler t data = []) ∧
    (∀ (t : BLETransport) (data : List Nat),
       notificationHandler (bleStopReceiving t) data = []) := by
  refine ⟨fun t => rfl, ?_, ?_, ?_⟩
  · intro t data cb h
    simp [notificationHandler, h]
  · intro t data h
    simp [notificationHandler, h]
  · intro t data
    simp [notificationHandler, bleStopReceiving]

/-- C10 witness: a connected instance with callback 5 registered forwards
to it; after `stop_receiving` the same notification is dropped. -/
theorem ble_stop_receiving_drops_notifications_witness :
    notificationHandler { mkBLE with receive_callback := some 5 } [9] =
      [(5, [9])] ∧
    notificationHandler
      (bleStopReceiving { mkBLE with receive_callback := some 5 }) [9] = [] :=
  ⟨ble_stop_receiving_drops_notifications.2.1 _ [9] 5 rfl,
   ble_stop_receiving_drops_notifications.2.2.2 _ [9]⟩

/-- C1: any failure of `connect` returns `false` and leaves the instance
disconnected, never raising across the transport boundary (both `connect`
bodies are total try/except wrappers returning a boolean). The WiFi
transport clears its socket handle on any connect exception; the BLE
transport returns `false` on import failure and on any exception or
failing task outcome, with `is_connected` still false afterwards (given
the instance started disconnected). -/
theorem connect_failure_leaves_disconnected :
    (∀ (t : WiFiTransport) (host : String) (port : Nat) (msg : String),
       (wifiConnect t host port (.raises msg)).2 = false ∧
       (wifiConnect t host port (.raises msg)).1.socket = none ∧
       (wifiConnect t host port (.raises msg)).1.is_connected = false) ∧
    (∀ (t : BLETransport) (addr : Option String) (st tt : Option ℚ)
       (env : AsyncConnectEnv),
       bleConnect t addr st false tt env = (t, .returns false 0 false)) ∧
    (∀ (t : BLETransport) (a : Option String) (st : Option ℚ)
       (env : AsyncConnectEnv),
       env.clientConnectRaises = true ∨ env.startNotifyRaises = true →
       (asyncConnect t a st env).2 = false) ∧
    (∀ (t : BLETransport) (addr : Option String) (st : Option ℚ)
       (imp : Bool) (tt : Option ℚ) (env : AsyncConnectEnv) (w : ℚ)
       (ab : Bool),
       t.is_connected = false →
       (bleConnect t addr st imp tt env).2 = .returns false w ab →
       (bleConnect t addr st imp tt env).1.is_connected = false) := by
  refine ⟨fun t host port msg => ⟨rfl, rfl, rfl⟩, fun t addr st tt env => rfl,
          ?_, ?_⟩
  · intro t a st env h
    obtain ⟨sc, ccr, ccres, cic, snr⟩ := env
    simp only at h
    rcases sc with _ | d <;> cases hp : pyTruthyStr a <;>
      cases ccr <;> cases ccres <;> cases cic <;> cases snr <;>
      simp_all [asyncConnect]
  · intro t addr st imp tt env w ab hdis hfail
    cases imp
    · simp only [bleConnect, if_pos rfl]
      exact hdis
    · rcases st with _ | stq
      · rcases tt with _ | ttq
        · simp [bleConnect] at hfail
        · simp only [bleConnect, Bool.true_eq_false, if_false,
                     ConnectOutcome.returns.injEq] at hfail
          obtain ⟨h1, -, -⟩ := hfail
          simp only [bleConnect, Bool.true_eq_false, if_false]
          exact (asyncConnect_fail_keeps_disconnected _ _ _ _ h1).trans hdis
      · rcases tt with _ | ttq
        · simp only [bleConnect, Bool.true_eq_false, if_false]
          exact hdis
        · by_cases hle : ttq ≤ stq + 20
          · simp only [bleConnect, Bool.true_eq_false, if_false, if_pos hle,
                       ConnectOutcome.returns.injEq] at hfail
            obtain ⟨h1, -, -⟩ := hfail
            simp only [bleConnect, Bool.true_eq_false, if_false, if_pos hle]
            exact (asyncConnect_fail_keeps_disconnected _ _ _ _ h1).trans hdis
          · simp only [bleConnect, Bool.true_eq_false, if_false, if_neg hle]
            exact hdis

/-- C1 witness: a concrete raising WiFi connect and a BLE connect whose
caller-side bound expires (`scan_timeout = 3`, task never completes). -/
theorem connect_failure_leaves_disconnected_witness :
    ((wifiConnect mkWiFi "192.168.42.1" 6666 (.raises "timed out")).2 = false ∧
     (wifiConnect mkWiFi "192.168.42.1" 6666 (.raises "timed out")).1.socket
       = none ∧
     (wifiConnect mkWiFi "192.168.42.1" 6666
       (.raises "timed out")).1.is_connected = false) ∧
    bleConnect mkBLE none (some 3) false (some 1)
        ⟨none, false, false, false, false⟩ =
      (mkBLE, .returns false 0 false) ∧
    (asyncConnect mkBLE (some "DC:54:75:E9:01:23") (some 3)
       ⟨none, true, false, false, false⟩).2 = false ∧
    (bleConnect mkBLE (some "DC:54:75:E9:01:23") (some 3) true none
       ⟨none, false, false, false, false⟩).1.is_connected = false :=
  ⟨connect_failure_leaves_disconnected.1 mkWiFi "192.168.42.1" 6666
     "timed out",
   connect_failure_leaves_disconnected.2.1 mkBLE none (some 3) (some 1)
     ⟨none, false, false, false, false⟩,
   connect_failure_leaves_disconnected.2.2.1 mkBLE
     (some "DC:54:75:E9:01:23") (some 3) ⟨none, true, false, false, false⟩
     (Or.inl rfl),
   connect_failure_leaves_disconnected.2.2.2 mkBLE
     (some "DC:54:75:E9:01:23") (some 3) true none
     ⟨none, false, false, false, false⟩ (3 + 20) true rfl rfl⟩

/-- C4 counterexample to "after a send that fails with a write error, the
state is Disconnected": on a connected socket-transport state, a send whose
write raises returns `false` but leaves `is_connected` true. -/
theorem wifi_send_error_keeps_connected_cex :
    (wifiSend wifiConnectedEx [1] false).2.1 = false ∧
    (wifiSend wifiConnectedEx [1] false).1.is_connected = true := by
  constructor <;> rfl

/-- C4 amended: the socket transport's state moves to Disconnected on
explicit `disconnect` (and a failed `connect` also leaves it
Disconnected with the handle cleared); a `send` that fails with a write
error returns `false` but leaves the instance state unchanged — still
`Connected` — until `disconnect` is called. -/
theorem wifi_state_transition_amended :
    (∀ t : WiFiTransport,
       (wifiDisconnect t).is_connected = false ∧
       (wifiDisconnect t).socket = none) ∧
    (∀ (t : WiFiTransport) (host : String) (port : Nat) (msg : String),
       (wifiConnect t host port (.raises msg)).1.is_connected = false ∧
       (wifiConnect t host port (.raises msg)).1.socket = none) ∧
    (∀ (t : WiFiTransport) (data : List Nat),
       t.is_connected = true → t.socket ≠ none →
       wifiSend t data false = (t, false, true)) := by
  refine ⟨fun t => ⟨wifiDisconnect_is_connected t, ?_⟩,
          fun t host port msg => ⟨rfl, rfl⟩, fun t data h1 h2 => ?_⟩
  · unfold wifiDisconnect wifiStopReceiving
    rcases t.rcv_thread with _ | b <;> rfl
  · simp [wifiSend, h1, h2]

/-- C4 amended witness: the concrete connected state. -/
theorem wifi_state_transition_amended_witness :
    wifiSend wifiConnectedEx [1] false = (wifiConnectedEx, false, true) :=
  wifi_state_transition_amended.2.2 wifiConnectedEx [1] rfl (by decide)

/-- C8 counterexample to "for every call the given callback becomes the
registered callback": with a receive thread already alive and callback 1
registered, `start_receiving` with callback 2 returns leaving callback 1
registered — the early-return branch skips registration entirely. -/
theorem wifi_start_receiving_noop_cex :
    ((wifiStartReceiving
        { wifiConnectedEx with rcv_thread := some true,
                               receive_callback := some 1 } 2).1.receive_callback
      = some 1) ∧
    ((wifiStartReceiving
        { wifiConnectedEx with rcv_thread := some true,
                               receive_callback := some 1 } 2).1.receive_callback
      ≠ some 2) := by
  constructor
  · rfl
  · decide

/-- C8 amended: when no receive loop is alive, `start_receiving` registers
the callback, clears the stop flag and spawns exactly one receive thread;
when a loop is already alive the call is a complete no-op — no second
thread is spawned and the previously registered callback is kept. The BLE
transport's `start_receiving` always registers the callback. -/
theorem start_receiving_registration_amended :
    (∀ (t : WiFiTransport) (cb : Nat), t.rcv_thread ≠ some true →
       (wifiStartReceiving t cb).1.receive_callback = some cb ∧
       (wifiStartReceiving t cb).1.rcv_thread = some true ∧
       (wifiStartReceiving t cb).1.stop_receiving_flag = false ∧
       (wifiStartReceiving t cb).2 = true) ∧
    (∀ (t : WiFiTransport) (cb : Nat), t.rcv_thread = some true →
       wifiStartReceiving t cb = (t, false)) ∧
    (∀ (t : BLETransport) (cb : Nat),
       (bleStartReceiving t cb).receive_callback = some cb) := by
  refine ⟨fun t cb h => ?_, fun t cb h => ?_, fun t cb => rfl⟩
  · rcases ht : t.rcv_thread with _ | b
    · simp [wifiStartReceiving, ht]
    · cases b
      · simp [wifiStartReceiving, ht]
      · exact absurd ht h
  · simp [wifiStartReceiving, h]

/-- C8 amended witness: a fresh instance spawns and registers; an instance
with a live loop is untouched. -/
theorem start_receiving_registration_amended_witness :
    ((wifiStartReceiving mkWiFi 2).1.receive_callback = some 2 ∧
     (wifiStartReceiving mkWiFi 2).1.rcv_thread = some true ∧
     (wifiStartReceiving mkWiFi 2).1.stop_receiving_flag = false ∧
     (wifiStartReceiving mkWiFi 2).2 = true) ∧
    wifiStartReceiving
        { wifiConnectedEx with rcv_thread := some true,
                               receive_callback := some 1 } 2 =
      ({ wifiConnectedEx with rcv_thread := some true,
                              receive_callback := some 1 }, false) :=
  ⟨start_receiving_registration_amended.1 mkWiFi 2 (by decide),
   start_receiving_registration_amended.2.1 _ 2 rfl⟩

/-- C9: `connection_info` round-trips the connection lifecycle. On a fresh
instance it reports the disconnected marker; after a successful `connect`
it reports the resolved endpoint identity (`host:port`, or the device
name/address for BLE); after `disconnect` it reverts to the marker. Both
implementations are pure attribute reads, so they never block or fail
(totality of the embedded functions). For WiFi the endpoint clause needs
the caller-supplied host and port to be truthy, matching the guard in the
source. -/
theorem connection_info_lifecycle_roundtrip :
    wifiConnectionInfo mkWiFi = "WiFi (disconnected)" ∧
    (∀ (t : WiFiTransport) (host : String) (port hdl : Nat),
       host ≠ "" → port ≠ 0 →
       wifiConnectionInfo (wifiConnect t host port (.ok hdl)).1 =
         "WiFi " ++ host ++ ":" ++ toString port) ∧
    (∀ t : WiFiTransport,
       wifiConnectionInfo (wifiDisconnect t) = "WiFi (disconnected)") ∧
    bleConnectionInfo mkBLE = "BLE (disconnected)" ∧
    (∀ (a : String) (st tt : ℚ) (env : AsyncConnectEnv),
       a ≠ "" → tt ≤ st + 20 →
       env.clientConnectRaises = false → env.clientConnectResult = true →
       env.startNotifyRaises = false →
       bleConnectionInfo
         (bleConnect mkBLE (some a) (some st) true (some tt) env).1 =
         "BLE " ++ a) ∧
    (∀ t : BLETransport,
       bleConnectionInfo (bleDisconnect t) = "BLE (disconnected)") := by
  refine ⟨rfl, fun t host port hdl h1 h2 => ?_,
          fun t => wifiConnectionInfo_disconnected
            (wifiDisconnect_is_connected t),
          rfl, fun a st tt env ha hle h1 h2 h3 => ?_, fun t => ?_⟩
  · simp [wifiConnect, wifiConnectionInfo, pyTruthyStr, pyTruthyNat, h1, h2]
  · obtain ⟨sc, ccr, ccres, cic, snr⟩ := env
    simp only at h1 h2 h3
    subst h1 h2 h3
    simp [bleConnect, if_pos hle, asyncConnect, pyTruthyStr, ha,
          bleConnectionInfo, pyStrOr, mkBLE]
  · simp [bleDisconnect, bleConnectionInfo]

/-- C9 witness: the default WiFi endpoint and a concrete BLE device
address, connecting with `scan_timeout = 3` and the task done after 1 s. -/
theorem connection_info_lifecycle_roundtrip_witness :
    wifiConnectionInfo
        (wifiConnect mkWiFi "192.168.42.1" 6666 (.ok 3)).1 =
      "WiFi " ++ "192.168.42.1" ++ ":" ++ toString 6666 ∧
    bleConnectionInfo
        (bleConnect mkBLE (some "DC:54:75:E9:01:23") (some 3) true (some 1)
          ⟨none, false, true, true, false⟩).1 =
      "BLE " ++ "DC:54:75:E9:01:23" :=
  ⟨connection_info_lifecycle_roundtrip.2.1 mkWiFi "192.168.42.1" 6666 3
     (by decide) (by decide),
   connection_info_lifecycle_roundtrip.2.2.2.2.1 "DC:54:75:E9:01:23" 3 1
     ⟨none, false, true, true, false⟩ (by decide) (by norm_num) rfl rfl rfl⟩

/-- C5: with a finite `scan_timeout` the caller-side wait of BLE `connect`
is bounded by `scan_timeout + 20` seconds (for any task behaviour and any
nonnegative `scan_timeout`); when that bound expires before the background
task completes, `connect` returns `false` and the task is merely
abandoned, never cancelled; with `scan_timeout = None` no bound is
applied: `connect` returns exactly when the task completes, however late
that is, and blocks forever when it never does. -/
theorem ble_connect_caller_wait_bound :
    (∀ (t : BLETransport) (addr : Option String) (st : ℚ) (tt : Option ℚ)
       (env : AsyncConnectEnv) (imp : Bool), 0 ≤ st →
       ∃ b w ab, (bleConnect t addr (some st) imp tt env).2 =
           .returns b w ab ∧ w ≤ st + 20) ∧
    (∀ (t : BLETransport) (addr : Option String) (st : ℚ)
       (env : AsyncConnectEnv),
       (bleConnect t addr (some st) true none env).2 =
         .returns false (st + 20) true) ∧
    (∀ (t : BLETransport) (addr : Option String) (st tt : ℚ)
       (env : AsyncConnectEnv), st + 20 < tt →
       (bleConnect t addr (some st) true (some tt) env).2 =
         .returns false (st + 20) true) ∧
    (∀ (t : BLETransport) (addr : Option String) (tt : ℚ)
       (env : AsyncConnectEnv),
       (bleConnect t addr none true (some tt) env).2 =
         .returns (asyncConnect
           { t with ble_thread := true, event_loop := true }
           addr none env).2 tt false) ∧
    (∀ (t : BLETransport) (addr : Option String) (env : AsyncConnectEnv),
       (bleConnect t addr none true none env).2 = .blocksForever) := by
  refine ⟨fun t addr st tt env imp hst => ?_,
          fun t addr st env => rfl, fun t addr st tt env hlt => ?_,
          fun t addr tt env => rfl, fun t addr env => rfl⟩
  · cases imp
    · exact ⟨false, 0, false, rfl, by linarith⟩
    · rcases tt with _ | ttq
      · exact ⟨false, st + 20, true, rfl, le_refl _⟩
      · by_cases hle : ttq ≤ st + 20
        · refine ⟨(asyncConnect
              { t with ble_thread := true, event_loop := true }
              addr (some st) env).2, ttq, false, ?_, hle⟩
          simp only [bleConnect, Bool.true_eq_false, if_false, if_pos hle]
        · refine ⟨false, st + 20, true, ?_, le_refl _⟩
          simp only [bleConnect, Bool.true_eq_false, if_false, if_neg hle]
  · have hle : ¬ (tt ≤ st + 20) := not_le.mpr hlt
    simp only [bleConnect, Bool.true_eq_false, if_false, if_neg hle]

/-- C5 witness: `scan_timeout = 3` with the task never completing: the
call gives up at 23 s with `false`, the task abandoned. -/
theorem ble_connect_caller_wait_bound_witness :
    (∃ b w ab,
       (bleConnect mkBLE none (some 3) true none
           ⟨none, false, false, false, false⟩).2 = .returns b w ab ∧
         w ≤ 3 + 20) ∧
    (bleConnect mkBLE none (some 3) true (some 100)
        ⟨none, false, false, false, false⟩).2 =
      .returns false (3 + 20) true :=
  ⟨ble_connect_caller_wait_bound.1 mkBLE none 3 none
     ⟨none, false, false, false, false⟩ true (by norm_num),
   ble_connect_caller_wait_bound.2.2.1 mkBLE none 3 100
     ⟨none, false, false, false, false⟩ (by norm_num)⟩

/-- Any device the indefinite scan returns advertises the service UUID. -/
theorem findCameraIndef_sound (windows : Nat → List WindowAdv) :
    ∀ (fuel count : Nat) (d : AdvDevice),
      (findCameraIndef windows fuel count).1 = some d →
      advMatches d = true := by
  intro fuel
  induction fuel with
  | zero => intro count d h; simp [findCameraIndef] at h
  | succ n ih =>
    intro count d h
    simp only [findCameraIndef, Nat.add_sub_cancel] at h
    rcases hm : windowFirstMatch (windows count) with _ | a
    · rw [hm] at h
      exact ih (count + 1) d h
    · rw [hm] at h
      simp only [Option.some.injEq] at h
      rw [← h]
      exact windowFirstMatch_matches hm

/-- When no window ever yields a match, the indefinite scan is still
running after any number of unrolled windows — it never terminates with a
not-found result — and has spent the full 5 seconds on every window. -/
theorem findCameraIndef_no_match (windows : Nat → List WindowAdv)
    (hnone : ∀ k, windowFirstMatch (windows k) = none) :
    ∀ (fuel count : Nat),
      (findCameraIndef windows fuel count).1 = none ∧
      (findCameraIndef windows fuel count).2.1 =
        SCAN_WINDOW_SEC * (fuel : ℚ) := by
  intro fuel
  induction fuel with
  | zero => intro count; exact ⟨rfl, by simp [findCameraIndef]⟩
  | succ n ih =>
    intro count
    simp only [findCameraIndef, Nat.add_sub_cancel, hnone]
    refine ⟨(ih (count + 1)).1, ?_⟩
    rw [(ih (count + 1)).2]
    push_cast
    ring

/-- The run of the indefinite scan that first matches in window
`count + k` (0-based): it returns that window's captured device, the
elapsed time is 5 s per earlier window plus the match's arrival time,
and a "still scanning" notice was logged at exactly the attempts numbered
above 1. -/
theorem findCameraIndef_found (windows : Nat → List WindowAdv)
    (a : WindowAdv) :
    ∀ (k fuel count : Nat), k < fuel →
      (∀ j, j < k → windowFirstMatch (windows (count + j)) = none) →
      windowFirstMatch (windows (count + k)) = some a →
      findCameraIndef windows fuel count =
        (some a.dev, SCAN_WINDOW_SEC * (k : ℚ) + a.time,
         ((List.range (k + 1)).map (fun j => count + j + 1)).filter
           (fun c => 1 < c)) := by
  intro k
  induction k with
  | zero =>
    intro fuel count hf _ hm
    obtain ⟨f, rfl⟩ : ∃ f, fuel = f + 1 := ⟨fuel - 1, by omega⟩
    rw [Nat.add_zero] at hm
    simp only [findCameraIndef, Nat.add_sub_cancel, hm, Prod.mk.injEq]
    refine ⟨trivial, ?_, ?_⟩
    · push_cast; ring
    · by_cases h : 0 < count <;> simp [List.filter, h]
  | succ m ih =>
    intro fuel count hf hpre hm
    obtain ⟨f, rfl⟩ : ∃ f, fuel = f + 1 := ⟨fuel - 1, by omega⟩
    have h0 : windowFirstMatch (windows count) = none := by
      simpa using hpre 0 (Nat.succ_pos m)
    have hpre' : ∀ j, j < m → windowFirstMatch (windows (count + 1 + j)) = none := by
      intro j hj
      have := hpre (j + 1) (by omega)
      have harr : count + (j + 1) = count + 1 + j := by omega
      rwa [harr] at this
    have hm' : windowFirstMatch (windows (count + 1 + m)) = some a := by
      have harr : count + (m + 1) = count + 1 + m := by omega
      rwa [harr] at hm
    have ihapp := ih f (count + 1) (by omega) hpre' hm'
    simp only [findCameraIndef, Nat.add_sub_cancel, h0, ihapp, Prod.mk.injEq]
    refine ⟨trivial, ?_, ?_⟩
    · push_cast; ring
    · have hr : List.range (m + 1 + 1) =
          0 :: (List.range (m + 1)).map Nat.succ := List.range_succ_eq_map _
      rw [hr]
      simp only [List.map_cons, List.map_map, List.filter_cons]
      have hfn : ((fun j => count + j + 1) ∘ Nat.succ) =
          (fun j => count + 1 + j + 1) := by
        funext j
        simp only [Function.comp]
        omega
      rw [hfn]
      have hc : (decide (1 < count + 0 + 1)) = decide (1 < count + 1) := by
        norm_num
      by_cases hcnt : 1 < count + 1
      · simp [hcnt]
      · simp [hcnt]

/-- Simplification of the log positions for a scan started at attempt 0:
the notices are exactly attempts `2 .. k+1`. -/
theorem scan_logs_from_zero :
    ∀ k : Nat,
      ((List.range (k + 1)).map (fun j => 0 + j + 1)).filter
          (fun c => 1 < c) =
        (List.range k).map (fun j => j + 2) := by
  intro k
  induction k with
  | zero => rfl
  | succ m ih =>
    have h1 : List.range (m + 1 + 1) = List.range (m + 1) ++ [m + 1] :=
      List.range_succ (m + 1)
    have h2 : List.range (m + 1) = List.range m ++ [m] := List.range_succ m
    rw [h1, List.map_append, List.filter_append, ih, h2, List.map_append]
    simp [List.filter]

/-- C6: the indefinite scan (`scan_timeout = None`) repeats bounded
5-second discovery windows and returns only devices advertising the fixed
service UUID, case-insensitively (part 1); when no matching advertisement
ever appears it is still scanning after any number of windows, having
spent the full 5 s on each — it never terminates with a not-found result
(part 2); and when window `k` (0-based) delivers the first match, it
returns that device immediately at the match's arrival time inside the
window rather than waiting the window out, with a "still scanning" notice
logged at exactly the attempts numbered 2 through `k + 1`, i.e. from the
second window on (part 3). -/
theorem ble_indefinite_scan_behaviour :
    (∀ (windows : Nat → List WindowAdv) (fuel count : Nat) (d : AdvDevice),
       (findCameraIndef windows fuel count).1 = some d →
       advMatches d = true) ∧
    (∀ windows : Nat → List WindowAdv,
       (∀ k, windowFirstMatch (windows k) = none) →
       ∀ fuel count,
         (findCameraIndef windows fuel count).1 = none ∧
         (findCameraIndef windows fuel count).2.1 =
           SCAN_WINDOW_SEC * (fuel : ℚ)) ∧
    (∀ (windows : Nat → List WindowAdv) (a : WindowAdv) (k fuel : Nat),
       k < fuel →
       (∀ j, j < k → windowFirstMatch (windows j) = none) →
       windowFirstMatch (windows k) = some a →
       findCameraIndef windows fuel 0 =
         (some a.dev, SCAN_WINDOW_SEC * (k : ℚ) + a.time,
          (List.range k).map (fun j => j + 2))) := by
  refine ⟨findCameraIndef_sound, findCameraIndef_no_match, ?_⟩
  intro windows a k fuel hk hpre hm
  have hfound := findCameraIndef_found windows a k fuel 0 hk
    (fun j hj => by simpa using hpre j hj) (by simpa using hm)
  rw [hfound, scan_logs_from_zero k]

/-- C6 witness: nothing in the first window, an uppercase-UUID Insta360
advertisement arriving 1 s into the second window: the scan returns that
device after 5 + 1 seconds, with one "still scanning" notice, at
attempt 2. -/
theorem ble_indefinite_scan_behaviour_witness :
    findCameraIndef
        (fun n => if n = 1 then
            [⟨⟨some "X3", "AA:BB:CC:DD:EE:FF",
               ["0000BE80-0000-1000-8000-00805F9B34FB"]⟩, 1⟩]
          else []) 2 0 =
      (some ⟨some "X3", "AA:BB:CC:DD:EE:FF",
             ["0000BE80-0000-1000-8000-00805F9B34FB"]⟩,
       SCAN_WINDOW_SEC * ((1 : Nat) : ℚ) + 1,
       (List.range 1).map (fun j => j + 2)) :=
  ble_indefinite_scan_behaviour.2.2
    (fun n => if n = 1 then
        [⟨⟨some "X3", "AA:BB:CC:DD:EE:FF",
           ["0000BE80-0000-1000-8000-00805F9B34FB"]⟩, 1⟩]
      else [])
    ⟨⟨some "X3", "AA:BB:CC:DD:EE:FF",
      ["0000BE80-0000-1000-8000-00805F9B34FB"]⟩, 1⟩
    1 2 (by decide) (by decide) (by decide)

end Insta360
